import Mathlib

/-!
Verification of the market-data session filter (session_filter.py) and the
data-quality validator (validate_data.py) of the wolf-skills-marketplace
repository, as a shallow embedding in Lean 4.

Records are Python dicts mapping field names to values; we model the values
that the scripts actually handle (integers, floats, and None).  Python floats
are modelled as exact rationals; the claims under examination are at whole
minute granularity where the two agree.  Timestamps are integer nanoseconds
since the Unix epoch.
-/

namespace WolfMarket

/-- A field value of a record: Python int, float (modelled exactly as a
rational), or None.  Dictionary lookup of an absent key through dict.get
yields None, which we model with the null constructor. -/
inductive Value where
  | int : Int → Value
  | float : ℚ → Value
  | null : Value
deriving DecidableEq

/-- Python truthiness of a value: 0, 0.0 and None are falsy. -/
def Value.truthy : Value → Bool
  | .int n => decide (n ≠ 0)
  | .float q => decide (q ≠ 0)
  | .null => false

/-- Python int() applied to a value.  A float is truncated toward zero; the
scripts only ever reach this after a truthiness guard, so null never arrives
here in an actual run (int(None) would raise in the source). -/
def Value.toInt : Value → Int
  | .int n => n
  | .float q => Int.tdiv q.num q.den
  | .null => 0

/-- A record is an ordered association list of field names to values,
modelling the Python dict (keys unique, insertion ordered). -/
abbrev Record := List (String × Value)

/-- Python record.get(key): the value stored under the key, or None when the
key is absent. -/
def Record.get (r : Record) (k : String) : Value :=
  match r.find? (fun p => p.1 == k) with
  | some p => p.2
  | none => .null

/-- Python membership test: key in record. -/
def Record.hasKey (r : Record) (k : String) : Bool :=
  r.any (fun p => p.1 == k)

/-- Python or on two values: the first if truthy, else the second. -/
def orV (a b : Value) : Value :=
  if a.truthy then a else b

/-- The timestamp-extraction chain used in all three scripts:
record.get("ts_event") or record.get("ts_recv") or record.get("timestamp"). -/
def Record.rawTs (r : Record) : Value :=
  orV (r.get "ts_event") (orV (r.get "ts_recv") (r.get "timestamp"))

/-! ## session_filter.py -/

/-- The three trading sessions of the TradingSession enum. -/
inductive TradingSession where
  | ASIAN
  | LONDON
  | NY
deriving DecidableEq

/-- The (start hour, end hour) component of each TradingSession enum value,
in ET: Asian (18, 2), London (2, 8), NY (8, 16). -/
def TradingSession.sessionHours : TradingSession → Int × Int
  | .ASIAN => (18, 2)
  | .LONDON => (2, 8)
  | .NY => (8, 16)

/-- Nanoseconds in one hour. -/
def nsPerHour : Int := 3600 * 1000000000

/-- Nanoseconds in one day. -/
def nsPerDay : Int := 24 * nsPerHour

/-- The ET hour of day of a nanosecond timestamp, under the simplified fixed
UTC-5 offset used by the source (datetime.fromtimestamp in UTC followed by a
timedelta of -5 hours; .hour is floor-of-day arithmetic, which Int.ediv and
Int.emod reproduce exactly). -/
def etHour (ts_ns : Int) : Int :=
  ((ts_ns - 5 * nsPerHour).ediv nsPerHour).emod 24

/-- The ET time-of-day of a nanosecond timestamp, in nanoseconds since the
most recent ET midnight. -/
def etTodNs (ts_ns : Int) : Int :=
  (ts_ns - 5 * nsPerHour).emod nsPerDay

/-- SessionFilter.get_current_session, modelled on the hour field of the
parsed timestamp (the source computes et_hour = (dt.hour - 5) % 24 and then
branches; Python % on ints is Int.emod). -/
def get_current_session (utcHour : Int) : String :=
  if 18 ≤ (utcHour - 5).emod 24 ∨ (utcHour - 5).emod 24 < 2 then "Asian"
  else if 2 ≤ (utcHour - 5).emod 24 ∧ (utcHour - 5).emod 24 < 8 then "London"
  else "NY"

/-- SessionFilter.is_in_session: the ET hour of the timestamp tested against
the session window, inclusive start, exclusive end, with the midnight
crossing branch for the Asian session. -/
def is_in_session (ts_ns : Int) (s : TradingSession) : Bool :=
  let hour := etHour ts_ns
  let hours := s.sessionHours
  if hours.1 < hours.2 then decide (hours.1 ≤ hour ∧ hour < hours.2)
  else decide (hour ≥ hours.1 ∨ hour < hours.2)

/-- The sessions dictionary built in SessionFilter.__init__, as a lookup from
session name to enum value (a missing name raises KeyError in Python, which
we model as none). -/
def sessionsMap (s : String) : Option TradingSession :=
  if s = "Asian" then some .ASIAN
  else if s = "London" then some .LONDON
  else if s = "NY" then some .NY
  else none

/-- Runtime failures of filter_by_session: a KeyError from an unknown session
name in the comprehension, or the ZeroDivisionError from the retained
percentage computation len(filtered)/len(data) when the input is empty. -/
inductive FilterError where
  | unknownSession : String → FilterError
  | divisionByZero : FilterError
deriving DecidableEq

/-- The list comprehension [self.sessions[s] for s in sessions]: evaluated
left to right, raising KeyError at the first unknown name. -/
def lookupSessions : List String → Except FilterError (List TradingSession)
  | [] => .ok []
  | s :: rest =>
    match sessionsMap s with
    | none => .error (.unknownSession s)
    | some e => (lookupSessions rest).map (fun es => e :: es)

/-- The per-record body of the filter_by_session loop: extract the timestamp
chain, skip the record if it is falsy, otherwise keep the record when it lies
in any of the requested sessions. -/
def keepRecord (enums : List TradingSession) (r : Record) : Bool :=
  let ts := r.rawTs
  if ts.truthy then enums.any (fun s => is_in_session ts.toInt s) else false

/-- SessionFilter.filter_by_session.  After the loop the source prints the
retained percentage len(filtered)/len(data)*100, which raises
ZeroDivisionError when the input list is empty, so the function only returns
normally on non-empty input. -/
def filter_by_session (data : List Record) (sessions : List String) :
    Except FilterError (List Record) :=
  match lookupSessions sessions with
  | .error e => .error e
  | .ok enums =>
    let filtered := data.filter (keepRecord enums)
    if data.length = 0 then .error .divisionByZero else .ok filtered

/-- The four session transition hours (ET) of filter_session_transitions. -/
def transitions : List Int := [2, 8, 16, 18]

/-- The per-record transition test: the absolute difference between the ET
time of day and a transition hour on the same calendar day, compared against
the total window width minutes_before + minutes_after (in nanoseconds, the
exact value of the float-seconds comparison of the source at the sub-second
free inputs of these claims). -/
def nearTransition (before after ts_ns : Int) : Bool :=
  let tod := etTodNs ts_ns
  transitions.any (fun h =>
    decide (((tod - h * nsPerHour).natAbs : Int) ≤ (before + after) * 60 * 1000000000))

/-- SessionFilter.filter_session_transitions: keep the records with a truthy
timestamp chain that are near some transition. -/
def filter_session_transitions (data : List Record) (before after : Int) :
    List Record :=
  data.filter (fun r => r.rawTs.truthy && nearTransition before after r.rawTs.toInt)

/-! ### Session helper lemmas -/

theorem etHour_nonneg (ts : Int) : 0 ≤ etHour ts :=
  Int.emod_nonneg _ (by norm_num)

theorem etHour_lt (ts : Int) : etHour ts < 24 :=
  Int.emod_lt_of_pos _ (by norm_num)

theorem is_in_session_asian_eq (ts : Int) :
    is_in_session ts .ASIAN = decide (etHour ts ≥ 18 ∨ etHour ts < 2) := rfl

theorem is_in_session_london_eq (ts : Int) :
    is_in_session ts .LONDON = decide (2 ≤ etHour ts ∧ etHour ts < 8) := rfl

theorem is_in_session_ny_eq (ts : Int) :
    is_in_session ts .NY = decide (8 ≤ etHour ts ∧ etHour ts < 16) := rfl

theorem is_in_session_asian (ts : Int) :
    is_in_session ts .ASIAN = true ↔ (18 ≤ etHour ts ∨ etHour ts < 2) := by
  rw [is_in_session_asian_eq]
  simp [ge_iff_le]

theorem is_in_session_london (ts : Int) :
    is_in_session ts .LONDON = true ↔ (2 ≤ etHour ts ∧ etHour ts < 8) := by
  rw [is_in_session_london_eq]
  simp

theorem is_in_session_ny (ts : Int) :
    is_in_session ts .NY = true ↔ (8 ≤ etHour ts ∧ etHour ts < 16) := by
  rw [is_in_session_ny_eq]
  simp

theorem sessions_cover (ts : Int) :
    (is_in_session ts .ASIAN || (is_in_session ts .LONDON || is_in_session ts .NY)) =
      decide (etHour ts < 16 ∨ 18 ≤ etHour ts) := by
  have h0 := etHour_nonneg ts
  have h24 := etHour_lt ts
  rw [is_in_session_asian_eq, is_in_session_london_eq, is_in_session_ny_eq,
    ← Bool.decide_or, ← Bool.decide_or, decide_eq_decide]
  omega

/-! ### C1: session classification partition -/

/-- C1 counterexample.  The claim states that every ET hour belongs to
exactly one of the three sessions under both classification routines, with
NY being the hours 8 to 15.  At the timestamp 75600000000000 ns (21:00 UTC,
ET hour 16) is_in_session rejects all three sessions, so hour 16 is left
unclassified; and get_current_session for UTC hour 21 (the same ET hour 16)
returns NY, outside the claimed NY window of 8 to 15. -/
theorem C1_counterexample :
    etHour 75600000000000 = 16 ∧
    is_in_session 75600000000000 .ASIAN = false ∧
    is_in_session 75600000000000 .LONDON = false ∧
    is_in_session 75600000000000 .NY = false ∧
    get_current_session 21 = "NY" := by
  refine ⟨by decide, by decide, by decide, by decide, by decide⟩

/-- C1 (amended): get_current_session classifies every hour into exactly one
session, but its NY branch is a catch-all covering ET hours 8 to 17; under
is_in_session the three sessions are pairwise disjoint at hour granularity
with the documented inclusive-start exclusive-end windows (Asian hour ≥ 18 or
hour < 2, London [2,8), NY [8,16)), but they do not cover the day: exactly
the ET hours 16 and 17 belong to no session. -/
theorem C1_session_windows :
    (∀ h : Int,
      (get_current_session h = "Asian" ↔
        (18 ≤ (h - 5).emod 24 ∨ (h - 5).emod 24 < 2)) ∧
      (get_current_session h = "London" ↔
        (2 ≤ (h - 5).emod 24 ∧ (h - 5).emod 24 < 8)) ∧
      (get_current_session h = "NY" ↔
        (8 ≤ (h - 5).emod 24 ∧ (h - 5).emod 24 < 18))) ∧
    (∀ ts : Int,
      (is_in_session ts .ASIAN = true ↔ (18 ≤ etHour ts ∨ etHour ts < 2)) ∧
      (is_in_session ts .LONDON = true ↔ (2 ≤ etHour ts ∧ etHour ts < 8)) ∧
      (is_in_session ts .NY = true ↔ (8 ≤ etHour ts ∧ etHour ts < 16)) ∧
      ((is_in_session ts .ASIAN && is_in_session ts .LONDON) = false) ∧
      ((is_in_session ts .ASIAN && is_in_session ts .NY) = false) ∧
      ((is_in_session ts .LONDON && is_in_session ts .NY) = false) ∧
      ((is_in_session ts .ASIAN || (is_in_session ts .LONDON || is_in_session ts .NY)) =
        decide (etHour ts < 16 ∨ 18 ≤ etHour ts))) := by
  constructor
  · intro h
    have h0 : 0 ≤ (h - 5).emod 24 := Int.emod_nonneg _ (by norm_num)
    have h24 : (h - 5).emod 24 < 24 := Int.emod_lt_of_pos _ (by norm_num)
    unfold get_current_session
    split_ifs with h1 h2
    · exact ⟨iff_of_true rfl h1, iff_of_false (by decide) (by omega),
        iff_of_false (by decide) (by omega)⟩
    · exact ⟨iff_of_false (by decide) h1, iff_of_true rfl h2,
        iff_of_false (by decide) (by omega)⟩
    · exact ⟨iff_of_false (by decide) h1, iff_of_false (by decide) h2,
        iff_of_true rfl (by omega)⟩
  · intro ts
    have h0 := etHour_nonneg ts
    have h24 := etHour_lt ts
    refine ⟨is_in_session_asian ts, is_in_session_london ts, is_in_session_ny ts,
      ?_, ?_, ?_, sessions_cover ts⟩ <;>
    · simp only [is_in_session_asian_eq, is_in_session_london_eq, is_in_session_ny_eq,
        ← Bool.decide_and, decide_eq_false_iff_not]
      omega

/-! ## validate_data.py -/

/-- One entry of the validator issue list, one constructor per issue type of
the source; each carries the kind-specific numeric payload (human readable
message strings and formatted timestamps are derived from these fields in the
source and carry no extra information). -/
inductive Issue where
  | timestampGap : Nat → Int → Issue
  | duplicateTimestamp : Int → Nat → Issue
  | priceOutlier : ℚ → ℚ → Issue
  | negativePrice : ℚ → Issue
  | unexpectedRecordCount : Nat → Nat → Issue
  | missingField : String → Nat → Issue
deriving DecidableEq

/-- The severity string attached to each issue type by the source. -/
def Issue.severity : Issue → String
  | .timestampGap _ _ => "warning"
  | .duplicateTimestamp _ _ => "error"
  | .priceOutlier _ _ => "warning"
  | .negativePrice _ => "error"
  | .unexpectedRecordCount _ _ => "warning"
  | .missingField _ _ => "error"

/-- The type string attached to each issue by the source. -/
def Issue.issueType : Issue → String
  | .timestampGap _ _ => "timestamp_gap"
  | .duplicateTimestamp _ _ => "duplicate_timestamp"
  | .priceOutlier _ _ => "price_outlier"
  | .negativePrice _ => "negative_price"
  | .unexpectedRecordCount _ _ => "unexpected_record_count"
  | .missingField _ _ => "missing_field"

/-- DataValidator._extract_timestamps: the timestamp chain of each record,
kept only when truthy (so a stored 0 is skipped), converted with int(). -/
def extract_timestamps (data : List Record) : List Int :=
  data.filterMap (fun r =>
    let ts := r.rawTs
    if ts.truthy then some ts.toInt else none)

/-- Python sorted() on integer timestamps (an ordered permutation; ties are
indistinguishable for integers). -/
def sortInts (l : List Int) : List Int :=
  List.insertionSort (fun a b => a ≤ b) l

/-- The gap comparison of check_timestamp_gaps: gap_seconds > max_gap_seconds
with gap_seconds = gap_ns / 1e9, as an exact rational comparison. -/
def gapExceeds (maxGapSeconds : Int) (gap_ns : Int) : Bool :=
  decide (((gap_ns : ℚ) / 1000000000) > (maxGapSeconds : ℚ))

/-- One detected gap of check_timestamp_gaps: loop index and gap width (the
source also stores the equivalent gap_seconds, gap_minutes and the two
formatted endpoint times, all derived from these two fields). -/
structure GapInfo where
  index : Nat
  gap_ns : Int
deriving DecidableEq

/-- The dict returned by check_timestamp_gaps.  On the short path (fewer than
two timestamps) the source returns only the keys valid, gaps and note; absent
keys are modelled as none. -/
structure GapCheckReport where
  valid : Bool
  gaps_found : Option Nat
  gaps : List GapInfo
  total_gaps : Option Nat
  note : Option String
deriving DecidableEq

/-- DataValidator.check_timestamp_gaps: extract and sort the timestamps, then
flag every consecutive pair more than max_gap_seconds apart, appending one
warning issue per gap to the shared issue list. -/
def check_timestamp_gaps (maxGapSeconds : Int) (st : List Issue)
    (data : List Record) : List Issue × GapCheckReport :=
  let timestamps := extract_timestamps data
  if timestamps.length < 2 then
    (st, ⟨true, none, [], none, some "Insufficient data for gap detection"⟩)
  else
    let sorted_ts := sortInts timestamps
    let gaps := (sorted_ts.zip sorted_ts.tail).enum.filterMap (fun p =>
      if gapExceeds maxGapSeconds (p.2.2 - p.2.1) then some ⟨p.1, p.2.2 - p.2.1⟩
      else none)
    (st ++ gaps.map (fun g => Issue.timestampGap g.index g.gap_ns),
     ⟨decide (gaps.length = 0), some gaps.length, gaps.take 10, some gaps.length, none⟩)

/-- The timestamp_counts accumulation of check_duplicates: occurrence counts
per exact timestamp value, in first-occurrence order (Python dict insertion
order). -/
def timestampCounts (ts : List Int) : List (Int × Nat) :=
  ts.foldl (fun acc t =>
    if acc.any (fun p => p.1 == t) then
      acc.map (fun p => if p.1 == t then (p.1, p.2 + 1) else p)
    else acc ++ [(t, 1)]) []

/-- The dict returned by check_duplicates. -/
structure DupCheckReport where
  valid : Bool
  duplicates_found : Nat
  duplicate_timestamps : Nat
deriving DecidableEq

/-- DataValidator.check_duplicates: any timestamp occurring more than once is
a duplicate group; the first 10 groups are appended as error issues. -/
def check_duplicates (st : List Issue) (data : List Record) :
    List Issue × DupCheckReport :=
  let timestamps := extract_timestamps data
  let duplicates := (timestampCounts timestamps).filter (fun p => p.2 > 1)
  (st ++ (duplicates.take 10).map (fun p => Issue.duplicateTimestamp p.1 p.2),
   ⟨decide (duplicates.length = 0), duplicates.length, duplicates.length⟩)

/-- The fixed-point rescale rule of _extract_prices: an int above 1,000,000
is divided by 1e9, then float() is applied.  A null stored under a price key
would raise TypeError at float() in the source; the claims never reach that
case, and we map it to 0 only to keep the function total. -/
def Value.toPrice : Value → ℚ
  | .int n => if n > 1000000 then (n : ℚ) / 1000000000 else (n : ℚ)
  | .float q => q
  | .null => 0

/-- DataValidator._extract_prices: the close field when present (membership
test, not truthiness), else the price field, else the record is skipped. -/
def extract_prices (data : List Record) : List ℚ :=
  data.filterMap (fun r =>
    if r.hasKey "close" then some ((r.get "close").toPrice)
    else if r.hasKey "price" then some ((r.get "price").toPrice)
    else none)

/-- Python min() over a non-empty list (left fold over the tail). -/
def listMin : List ℚ → ℚ
  | [] => 0
  | x :: xs => xs.foldl min x

/-- Python max() over a non-empty list (left fold over the tail). -/
def listMax : List ℚ → ℚ
  | [] => 0
  | x :: xs => xs.foldl max x

/-- The dict returned by check_price_range.  The source stores the standard
deviation std_dev = sqrt(variance); we carry the variance (its square) to
stay in exact rational arithmetic, which determines std_dev uniquely. -/
structure PriceCheckReport where
  valid : Bool
  note : Option String
  min_price : Option ℚ
  max_price : Option ℚ
  mean_price : Option ℚ
  variance : Option ℚ
  negative_prices : Option Nat
  zero_prices : Option Nat
  outliers : Option Nat
deriving DecidableEq

/-- The outlier test of check_price_range.  The source compares
abs(p - mean) > threshold * sqrt(variance); both sides are nonnegative for
the nonnegative thresholds the tool is run with, so squaring gives the
equivalent rational comparison used here. -/
def isOutlier (threshold mean variance p : ℚ) : Bool :=
  decide ((p - mean) ^ 2 > threshold ^ 2 * variance)

/-- DataValidator.check_price_range: negative and zero prices determine
validity; mean and population variance (divide by N) over all extracted
prices feed the outlier detection; outlier warnings (first 10) are appended
before the negative-price errors (first 10), matching the source order. -/
def check_price_range (threshold : ℚ) (st : List Issue) (data : List Record) :
    List Issue × PriceCheckReport :=
  let prices := extract_prices data
  if prices.isEmpty then
    (st, ⟨true, some "No price data to validate", none, none, none, none, none, none, none⟩)
  else
    let negative_prices := prices.filter (fun p => decide (p < 0))
    let zero_prices := prices.filter (fun p => decide (p = 0))
    let stats :=
      if 1 < prices.length then
        let mean := prices.sum / (prices.length : ℚ)
        let var := (prices.map (fun p => (p - mean) ^ 2)).sum / (prices.length : ℚ)
        (mean, var, prices.filter (isOutlier threshold mean var))
      else (prices.headD 0, 0, [])
    let outlierIssues := (stats.2.2.take 10).map (fun p => Issue.priceOutlier p stats.1)
    let negIssues := (negative_prices.take 10).map Issue.negativePrice
    (st ++ outlierIssues ++ negIssues,
     ⟨decide (negative_prices.length = 0) && decide (zero_prices.length = 0),
      none, some (listMin prices), some (listMax prices), some stats.1,
      some stats.2.1, some negative_prices.length, some zero_prices.length,
      some stats.2.2.length⟩)

/-- Python substring membership pat in s: some suffix of s starts with pat. -/
def containsStr (s pat : String) : Bool :=
  s.data.tails.any (fun t => pat.data.isPrefixOf t)

/-- DataValidator._estimate_expected_count: every branch of the source
returns None (the hourly and daily OHLCV branches are annotated with the
intended estimates but still return None). -/
def estimate_expected_count (schema : String) : Option Nat :=
  if containsStr schema "ohlcv" then
    if containsStr schema "1h" then none
    else if containsStr schema "1d" then none
    else none
  else none

/-- The dict returned by check_record_count. -/
structure CountCheckReport where
  valid : Bool
  actual_count : Nat
  expected_count : Option Nat
  note : String
deriving DecidableEq

/-- DataValidator.check_record_count: flag a deviation of more than 10% from
the estimated expected count; a falsy estimate (None or 0) skips the test. -/
def check_record_count (schema : String) (st : List Issue) (data : List Record) :
    List Issue × CountCheckReport :=
  let expected := estimate_expected_count schema
  let flagged :=
    match expected with
    | some e => decide (e ≠ 0) &&
        decide ((((data.length : Int) - (e : Int)).natAbs : ℚ) > (e : ℚ) * (1 / 10))
    | none => false
  let newIssues :=
    if flagged then [Issue.unexpectedRecordCount data.length (expected.getD 0)] else []
  (st ++ newIssues,
   ⟨!flagged, data.length, expected,
    "Expected count is estimated based on schema and date range"⟩)

/-- DataValidator._get_required_fields: the required field set selected by
substring matching on the schema identifier. -/
def get_required_fields (schema : String) : List String :=
  let base := ["ts_event", "ts_recv"]
  if containsStr schema "ohlcv" then base ++ ["open", "high", "low", "close", "volume"]
  else if schema = "trades" then base ++ ["price", "size"]
  else if containsStr schema "mbp" then
    base ++ ["bid_px_00", "ask_px_00", "bid_sz_00", "ask_sz_00"]
  else base

/-- Increment the tally of a field name, appending it on first occurrence
(Python defaultdict insertion order). -/
def addTally (acc : List (String × Nat)) (f : String) : List (String × Nat) :=
  if acc.any (fun p => p.1 == f) then
    acc.map (fun p => if p.1 == f then (p.1, p.2 + 1) else p)
  else acc ++ [(f, 1)]

/-- The dict returned by check_completeness. -/
structure CompletenessReport where
  valid : Bool
  note : Option String
  missing_fields : List (String × Nat)
deriving DecidableEq

/-- DataValidator.check_completeness: sample the first 100 records; a field
is missing when absent or stored as None; one error issue per distinct
missing field. -/
def check_completeness (schema : String) (st : List Issue) (data : List Record) :
    List Issue × CompletenessReport :=
  if data.isEmpty then (st, ⟨false, some "No data", []⟩)
  else
    let required := get_required_fields schema
    let missing := (data.take 100).foldl (fun acc r =>
      required.foldl (fun acc2 f =>
        if !(r.hasKey f) || decide (r.get f = Value.null) then addTally acc2 f
        else acc2) acc) []
    (st ++ missing.map (fun p => Issue.missingField p.1 p.2),
     ⟨missing.isEmpty, none, missing⟩)

/-- The five sub-reports of one validate() run, i.e. the checks dict of the
report on the non-empty path. -/
structure Checks where
  timestamp_gaps : GapCheckReport
  duplicates : DupCheckReport
  price_range : PriceCheckReport
  record_count : CountCheckReport
  data_completeness : CompletenessReport
deriving DecidableEq

/-- The validation report.  checks = none models the empty checks dict of the
empty-input short circuit (zero checks run); issues = none models the absent
issues key (the source only assigns report["issues"] on the non-empty path). -/
structure Report where
  total_records : Nat
  valid : Bool
  checks : Option Checks
  issues : Option (List Issue)
deriving DecidableEq

/-- The constructor arguments of DataValidator.__init__: schema string,
maximum gap in minutes, outlier threshold in standard deviations. -/
structure ValidatorConfig where
  schema : String
  max_gap_minutes : Int
  price_outlier_std : ℚ
deriving DecidableEq

/-- DataValidator.validate, with the instance issue list made explicit: it is
initialised to [] by __init__ and passed through unchanged by validate, which
never resets it; each check appends its new issues.  On empty input the
source flips valid to False and returns before running any check and before
assigning the issues key. -/
def validate (cfg : ValidatorConfig) (issues0 : List Issue) (data : List Record) :
    List Issue × Report :=
  if data.isEmpty then
    (issues0, ⟨data.length, false, none, none⟩)
  else
    let r1 := check_timestamp_gaps (cfg.max_gap_minutes * 60) issues0 data
    let r2 := check_duplicates r1.1 data
    let r3 := check_price_range cfg.price_outlier_std r2.1 data
    let r4 := check_record_count cfg.schema r3.1 data
    let r5 := check_completeness cfg.schema r4.1 data
    (r5.1,
     ⟨data.length,
      r1.2.valid && (r2.2.valid && (r3.2.valid && (r4.2.valid && r5.2.valid))),
      some ⟨r1.2, r2.2, r3.2, r4.2, r5.2⟩, some r5.1⟩)

/-! ### Accumulation lemmas for the shared issue list -/

theorem check_timestamp_gaps_append (m : Int) (st : List Issue) (data : List Record) :
    ∃ d, (check_timestamp_gaps m st data).1 = st ++ d := by
  simp only [check_timestamp_gaps]
  split
  · exact ⟨[], by simp⟩
  · exact ⟨_, rfl⟩

theorem check_duplicates_append (st : List Issue) (data : List Record) :
    ∃ d, (check_duplicates st data).1 = st ++ d :=
  ⟨_, rfl⟩

theorem check_price_range_append (t : ℚ) (st : List Issue) (data : List Record) :
    ∃ d, (check_price_range t st data).1 = st ++ d := by
  simp only [check_price_range]
  split
  · exact ⟨[], by simp⟩
  · exact ⟨_, (List.append_assoc st _ _)⟩

theorem check_record_count_append (schema : String) (st : List Issue) (data : List Record) :
    ∃ d, (check_record_count schema st data).1 = st ++ d :=
  ⟨_, rfl⟩

theorem check_completeness_append (schema : String) (st : List Issue) (data : List Record) :
    ∃ d, (check_completeness schema st data).1 = st ++ d := by
  simp only [check_completeness]
  split
  · exact ⟨[], by simp⟩
  · exact ⟨_, rfl⟩

/-! ### C2: the issue list across validate calls -/

/-- The validator configuration of the C2 counterexample: an unknown schema,
whose required fields are just ts_event and ts_recv. -/
def cfgCustom : ValidatorConfig := ⟨"custom", 60, 10⟩

/-- First-call input of the C2 counterexample: one record lacking ts_recv,
which generates one missing_field issue. -/
def dMissingRecv : List Record := [[("ts_event", Value.int 1000000000)]]

/-- Second-call input of the C2 counterexample: one fully well-formed record
that generates no issue of its own. -/
def dClean : List Record :=
  [[("ts_event", Value.int 1000000000), ("ts_recv", Value.int 1000000000)]]

/-- C2 counterexample.  The claim states the issue list is reset at the start
of each validate() call, so a second call on clean data must report an empty
issue list.  Running validate on dMissingRecv (one missing_field issue) and
then on dClean with the same instance state yields a second report whose
issue list still holds the first call issue, while a fresh instance on dClean
reports no issues. -/
theorem C2_counterexample :
    (validate cfgCustom (validate cfgCustom [] dMissingRecv).1 dClean).2.issues =
      some [Issue.missingField "ts_recv" 1] ∧
    (validate cfgCustom [] dClean).2.issues = some [] := by
  exact ⟨by decide, by decide⟩

/-- C2 (amended): the issue list is instance-scoped, not run-scoped.
validate() never resets it; each call appends its newly generated issues to
whatever the list already holds, and the returned report carries the full
accumulated list (on non-empty input; the empty-input short circuit leaves
the list untouched and omits the issues key), so a second call report
includes the issues of earlier calls on the same instance. -/
theorem C2_issue_accumulation :
    ∀ (cfg : ValidatorConfig) (issues0 : List Issue) (data : List Record),
      ∃ newIssues,
        (validate cfg issues0 data).1 = issues0 ++ newIssues ∧
        (validate cfg issues0 data).2.issues =
          (if data.isEmpty then none else some (issues0 ++ newIssues)) := by
  intro cfg st data
  cases hE : data.isEmpty with
  | true =>
    refine ⟨[], ?_, ?_⟩ <;> simp [validate, hE]
  | false =>
    obtain ⟨d1, h1⟩ := check_timestamp_gaps_append (cfg.max_gap_minutes * 60) st data
    obtain ⟨d2, h2⟩ := check_duplicates_append (st ++ d1) data
    obtain ⟨d3, h3⟩ := check_price_range_append cfg.price_outlier_std (st ++ d1 ++ d2) data
    obtain ⟨d4, h4⟩ := check_record_count_append cfg.schema (st ++ d1 ++ d2 ++ d3) data
    obtain ⟨d5, h5⟩ := check_completeness_append cfg.schema (st ++ d1 ++ d2 ++ d3 ++ d4) data
    refine ⟨d1 ++ (d2 ++ (d3 ++ (d4 ++ d5))), ?_, ?_⟩ <;>
    · simp only [validate, hE, Bool.false_eq_true, if_false]
      rw [h1, h2, h3, h4, h5]
      simp [List.append_assoc]

/-! ### C3: filtering by the full session set -/

/-- The full session list. -/
def allSessions : List String := ["Asian", "London", "NY"]

/-- A record with a usable timestamp at ET hour 16 (21:00 UTC). -/
def rET16 : Record := [("ts_event", Value.int 75600000000000)]

/-- C3 counterexample.  The claim states that filtering by the full session
set keeps every record with a usable derived timestamp.  rET16 has a usable
(truthy) timestamp, yet filtering it by all three sessions drops it, because
its ET hour 16 lies in the post-market gap of the session windows. -/
theorem C3_counterexample :
    (rET16.rawTs.truthy = true) ∧
    filter_by_session [rET16] allSessions = .ok [] := by
  exact ⟨rfl, rfl⟩

/-- C3 (amended): filtering by the full session set keeps, in input order,
exactly the records with a usable derived timestamp whose ET hour lies inside
one of the three session windows, i.e. whose ET hour is below 16 or at least
18; usable-timestamp records at ET hours 16 and 17 are dropped as well. -/
theorem C3_full_session_filter (data : List Record) (hne : data ≠ []) :
    filter_by_session data allSessions =
      .ok (data.filter (fun r => r.rawTs.truthy &&
        decide (etHour r.rawTs.toInt < 16 ∨ 18 ≤ etHour r.rawTs.toInt))) := by
  have hlk : lookupSessions allSessions =
      .ok [TradingSession.ASIAN, TradingSession.LONDON, TradingSession.NY] := rfl
  have hlen : ¬ data.length = 0 := by
    simpa [List.length_eq_zero] using hne
  simp only [filter_by_session, hlk, if_neg hlen]
  congr 1
  apply List.filter_congr
  intro r _
  simp only [keepRecord]
  cases ht : r.rawTs.truthy with
  | false => simp
  | true =>
    simp only [if_true, Bool.true_and]
    have hc := sessions_cover r.rawTs.toInt
    simpa [List.any] using hc

/-- C3 witness: a concrete non-empty input on which the amended theorem
applies, a single record at ET hour 19 that the filter keeps. -/
theorem C3_witness :
    ([[("ts_event", Value.int 1000000000)]] : List Record) ≠ [] ∧
    filter_by_session [[("ts_event", Value.int 1000000000)]] allSessions =
      .ok (List.filter (fun r => r.rawTs.truthy &&
        decide (etHour r.rawTs.toInt < 16 ∨ 18 ≤ etHour r.rawTs.toInt))
        [[("ts_event", Value.int 1000000000)]]) :=
  ⟨by simp, C3_full_session_filter [[("ts_event", Value.int 1000000000)]] (by simp)⟩

/-! ### C4: the transition filter window -/

/-- A record at ET 08:00:00 (13:00 UTC). -/
def rT800 : Record := [("ts_event", Value.int 46800000000000)]

/-- A record at ET 08:31:00 (13:31 UTC). -/
def rT831 : Record := [("ts_event", Value.int 48660000000000)]

/-- A record at ET 09:01:00 (14:01 UTC). -/
def rT901 : Record := [("ts_event", Value.int 50460000000000)]

/-- Boolean equality of any and the decidable existential it computes. -/
theorem any_eq_decide (l : List Int) (p : Int → Bool) :
    l.any p = decide (∃ x ∈ l, p x = true) := by
  by_cases h : ∃ x ∈ l, p x = true
  · rw [decide_eq_true h]
    exact List.any_eq_true.mpr h
  · rw [decide_eq_false h]
    exact Bool.eq_false_iff.mpr (fun hc => h (List.any_eq_true.mp hc))

/-- C4 counterexample.  The claim states that with minutes_before = 30 and
minutes_after = 30 a record at ET hour 8 minute 31 is excluded.  The source
compares the time-of-day distance against the total width minutes_before +
minutes_after = 60 minutes, so the 08:31 record (1860 s from the 8:00
transition) is kept. -/
theorem C4_counterexample :
    etTodNs (rT831.rawTs.toInt) = 30660000000000 ∧
    filter_session_transitions [rT831] 30 30 = [rT831] := by
  exact ⟨rfl, rfl⟩

/-- C4 (amended): a record is kept iff the absolute seconds difference
between its ET time-of-day and some transition hour in {2, 8, 16, 18} on the
same calendar day is at most (minutes_before + minutes_after) * 60 seconds —
the total window width on each side of the transition, not minutes_before on
one side and minutes_after on the other.  With minutes_before = 30 and
minutes_after = 30 a record at exactly ET 8:00 is kept (distance 0) and a
record at ET 8:31 is kept as well (1860 s ≤ 3600 s); exclusion starts beyond
60 minutes, e.g. a record at ET 9:01 is dropped. -/
theorem C4_transition_window :
    (filter_session_transitions [rT800] 30 30 = [rT800]) ∧
    (filter_session_transitions [rT831] 30 30 = [rT831]) ∧
    (filter_session_transitions [rT901] 30 30 = []) ∧
    (∀ (before after : Int) (data : List Record),
      filter_session_transitions data before after =
        data.filter (fun r => r.rawTs.truthy &&
          decide (∃ h ∈ transitions,
            ((etTodNs r.rawTs.toInt - h * nsPerHour).natAbs : Int) ≤
              (before + after) * 60 * 1000000000))) := by
  refine ⟨rfl, rfl, rfl, ?_⟩
  intro before after data
  apply List.filter_congr
  intro r _
  cases ht : r.rawTs.truthy with
  | false => simp
  | true =>
    simp only [Bool.true_and]
    rw [nearTransition, any_eq_decide]
    simp

/-! ### C5: the empty-input report -/

/-- The default validator configuration of the command line. -/
def cfgOhlcv : ValidatorConfig := ⟨"ohlcv-1h", 60, 10⟩

/-- C5: on empty input validate short-circuits to a report with valid =
false, total_records = 0 and zero checks run — but, contrary to the claim and
to the output schema, the report does NOT contain the issues list field (the
source only assigns report["issues"] after the checks, and its own
print_report then raises KeyError on this report).  checks = none and
issues = none model the empty checks dict and the absent issues key. -/
theorem C5_empty_validate_eval :
    (validate cfgOhlcv [] []).2.total_records = 0 ∧
    (validate cfgOhlcv [] []).2.valid = false ∧
    (validate cfgOhlcv [] []).2.checks = none ∧
    (validate cfgOhlcv [] []).2.issues = none := by
  exact ⟨rfl, rfl, rfl, rfl⟩

/-! ### C6: the price-range check -/

/-- The record list of the spec price-check example, with extracted prices
100, 100, 100, 100, -5. -/
def dPrices : List Record :=
  [[("close", Value.float 100)], [("close", Value.float 100)], [("close", Value.float 100)],
   [("close", Value.float 100)], [("close", Value.float (-5))]]

/-- C6: the price-range check is valid iff every extracted price is strictly
positive (no negative and no exactly-zero price; outliers never invalidate
it), and on the example prices 100, 100, 100, 100, -5 exactly one
negative_price error issue is appended, the check is invalid, and the mean
(79) and population variance (1764 = 8820/5, divide by N not N-1) are
computed over all five prices including the negative one, flagging zero
outliers. -/
theorem C6_price_range_check :
    (∀ (t : ℚ) (st : List Issue) (data : List Record),
      ((check_price_range t st data).2.valid = true ↔
        (extract_prices data).all (fun p => decide (0 < p)) = true)) ∧
    extract_prices dPrices = [100, 100, 100, 100, -5] ∧
    (check_price_range 10 [] dPrices).1 = [Issue.negativePrice (-5)] ∧
    (check_price_range 10 [] dPrices).2.valid = false ∧
    (check_price_range 10 [] dPrices).2.mean_price = some 79 ∧
    (check_price_range 10 [] dPrices).2.variance = some 1764 ∧
    (check_price_range 10 [] dPrices).2.negative_prices = some 1 ∧
    (check_price_range 10 [] dPrices).2.zero_prices = some 0 ∧
    (check_price_range 10 [] dPrices).2.outliers = some 0 ∧
    Issue.severity (Issue.negativePrice (-5)) = "error" ∧
    Issue.issueType (Issue.negativePrice (-5)) = "negative_price" := by
  have hex : extract_prices dPrices = [100, 100, 100, 100, -5] := by decide
  have hiff : ∀ (t : ℚ) (st : List Issue) (data : List Record),
      ((check_price_range t st data).2.valid = true ↔
        (extract_prices data).all (fun p => decide (0 < p)) = true) := by
    intro t st data
    simp only [check_price_range]
    split
    · rename_i hEmp
      rw [List.isEmpty_iff] at hEmp
      simp [hEmp]
    · rw [Bool.and_eq_true, decide_eq_true_eq, decide_eq_true_eq,
        List.length_eq_zero, List.length_eq_zero,
        List.filter_eq_nil_iff, List.filter_eq_nil_iff, List.all_eq_true]
      constructor
      · rintro ⟨h1, h2⟩ p hp
        have hn := h1 p hp
        have hz := h2 p hp
        simp only [decide_eq_true_eq] at hn hz ⊢
        exact lt_of_le_of_ne (not_lt.mp hn) (fun he => hz he.symm)
      · intro h
        constructor <;> intro p hp <;>
          have hpos : 0 < p := by simpa using h p hp
        · simp [not_lt.mpr (le_of_lt hpos)]
        · simp [ne_of_gt hpos]
  refine ⟨hiff, hex, ?_, by decide, ?_, ?_, by decide, by decide, ?_, rfl, rfl⟩ <;>
  · simp only [check_price_range, hex]
    norm_num [List.filter, isOutlier]

/-! ### C7: the gap check boundary -/

/-- A record carrying only a ts_event field. -/
def recT (t : Int) : Record := [("ts_event", Value.int t)]

theorem rawTs_recT (t : Int) (h : t ≠ 0) : (recT t).rawTs = Value.int t := by
  have h1 : (recT t).get "ts_event" = Value.int t := rfl
  have h2 : (recT t).get "ts_recv" = Value.null := rfl
  have h3 : (recT t).get "timestamp" = Value.null := rfl
  simp [Record.rawTs, h1, h2, h3, orV, Value.truthy, h]

theorem extract_timestamps_pairT (a b : Int) (ha : a ≠ 0) (hb : b ≠ 0) :
    extract_timestamps [recT a, recT b] = [a, b] := by
  simp [extract_timestamps, rawTs_recT a ha, rawTs_recT b hb, Value.truthy,
    Value.toInt, ha, hb]

theorem sortInts_pair (a b : Int) (h : a ≤ b) : sortInts [a, b] = [a, b] := by
  simp [sortInts, List.insertionSort, List.orderedInsert, h]

theorem gapExceeds_exact (m : Int) :
    gapExceeds (m * 60) (m * 60 * 1000000000) = false := by
  simp only [gapExceeds, decide_eq_false_iff_not, not_lt]
  push_cast
  rw [mul_div_assoc]
  norm_num

/-- C7: the gap boundary is strict.  Two extracted timestamps exactly
maxGapMinutes*60 seconds apart produce zero gaps and leave the issue list
unchanged; two timestamps 61 minutes apart with maxGapMinutes = 60 produce
exactly one gap and one warning issue; the check is valid iff zero gaps are
found; and with fewer than two extracted timestamps it is trivially valid
with a note and never invalid while the note is present. -/
theorem C7_gap_boundary :
    (∀ (mg t : Int) (st : List Issue), 0 ≤ mg → 0 < t →
      (check_timestamp_gaps (mg * 60) st
        [recT t, recT (t + mg * 60 * 1000000000)]).1 = st ∧
      (check_timestamp_gaps (mg * 60) st
        [recT t, recT (t + mg * 60 * 1000000000)]).2.total_gaps = some 0 ∧
      (check_timestamp_gaps (mg * 60) st
        [recT t, recT (t + mg * 60 * 1000000000)]).2.valid = true) ∧
    ((check_timestamp_gaps (60 * 60) []
        [recT 1000000000, recT 3661000000000]).1 =
      [Issue.timestampGap 0 3660000000000] ∧
     (check_timestamp_gaps (60 * 60) []
        [recT 1000000000, recT 3661000000000]).2.total_gaps = some 1 ∧
     (check_timestamp_gaps (60 * 60) []
        [recT 1000000000, recT 3661000000000]).2.valid = false ∧
     Issue.severity (Issue.timestampGap 0 3660000000000) = "warning") ∧
    (∀ (m : Int) (st : List Issue) (data : List Record),
      ((check_timestamp_gaps m st data).2.valid = true ↔
        ((check_timestamp_gaps m st data).2.total_gaps = none ∨
         (check_timestamp_gaps m st data).2.total_gaps = some 0)) ∧
      ((check_timestamp_gaps m st data).2.note.isSome =
        decide ((extract_timestamps data).length < 2)) ∧
      (((check_timestamp_gaps m st data).2.note.isSome &&
        !(check_timestamp_gaps m st data).2.valid) = false)) := by
  have hconc :
      (check_timestamp_gaps (60 * 60) []
        [recT 1000000000, recT 3661000000000]).1 =
        [Issue.timestampGap 0 3660000000000] ∧
      (check_timestamp_gaps (60 * 60) []
        [recT 1000000000, recT 3661000000000]).2.total_gaps = some 1 ∧
      (check_timestamp_gaps (60 * 60) []
        [recT 1000000000, recT 3661000000000]).2.valid = false := by
    have hts := extract_timestamps_pairT 1000000000 3661000000000
      (by norm_num) (by norm_num)
    have hsort := sortInts_pair 1000000000 3661000000000 (by norm_num)
    have hg : gapExceeds 3600 3660000000000 = true := by
      simp only [gapExceeds, decide_eq_true_eq]
      norm_num
    refine ⟨?_, ?_, ?_⟩ <;> simp [check_timestamp_gaps, hts, hsort, hg]
  refine ⟨?_, ⟨hconc.1, hconc.2.1, hconc.2.2, rfl⟩, ?_⟩
  · intro mg t st hmg ht
    have ha : t ≠ 0 := ne_of_gt ht
    have hb : t + mg * 60 * 1000000000 ≠ 0 := by omega
    have hts := extract_timestamps_pairT t (t + mg * 60 * 1000000000) ha hb
    have hsort : sortInts [t, t + mg * 60 * 1000000000] =
        [t, t + mg * 60 * 1000000000] := sortInts_pair _ _ (by omega)
    have hdiff : t + mg * 60 * 1000000000 - t = mg * 60 * 1000000000 := by ring
    simp [check_timestamp_gaps, hts, hsort, hdiff, gapExceeds_exact]
  · intro m st data
    simp only [check_timestamp_gaps]
    split
    · rename_i hlt
      exact ⟨by simp, by simp [hlt], by simp⟩
    · rename_i hge
      exact ⟨by simp, by simp [hge], by simp⟩

/-- C7 witness: the boundary part applied at maxGapMinutes = 60 and
timestamp 1000000000 ns, a pair exactly 60 minutes apart. -/
theorem C7_witness :
    (0 : Int) ≤ 60 ∧ (0 : Int) < 1000000000 ∧
    (check_timestamp_gaps (60 * 60) []
      [recT 1000000000, recT (1000000000 + 60 * 60 * 1000000000)]).2.total_gaps = some 0 :=
  ⟨by norm_num, by norm_num,
    (C7_gap_boundary.1 60 1000000000 [] (by norm_num) (by norm_num)).2.1⟩

/-! ### C8: the record-count check -/

/-- C8: the expected-count estimator returns none for every schema, so
check_record_count is always trivially valid, reports no expected count, and
appends no issue. -/
theorem C8_record_count_trivial :
    ∀ (schema : String) (st : List Issue) (data : List Record),
      estimate_expected_count schema = none ∧
      (check_record_count schema st data).1 = st ∧
      (check_record_count schema st data).2.valid = true ∧
      (check_record_count schema st data).2.expected_count = none := by
  intro schema st data
  have he : estimate_expected_count schema = none := by
    simp [estimate_expected_count]
  refine ⟨he, ?_, ?_, ?_⟩ <;> simp [check_record_count, he]

/-! ### C9: a zero timestamp is treated as missing -/

/-- C9: the truthiness-based timestamp chain makes a stored 0 behave exactly
like an absent field: a record with ts_event = 0 falls through to ts_recv
(and is extracted as the ts_recv value when that is nonzero), and a record
whose only timestamp field holds 0 yields no extracted timestamp and is
silently dropped by session filtering. -/
theorem C9_zero_timestamp_missing :
    (∀ n : Int,
      Record.rawTs [("ts_event", Value.int 0), ("ts_recv", Value.int n)] =
        Record.rawTs [("ts_recv", Value.int n)]) ∧
    (∀ n : Int, n ≠ 0 →
      extract_timestamps [[("ts_event", Value.int 0), ("ts_recv", Value.int n)]] = [n]) ∧
    extract_timestamps [[("ts_event", Value.int 0)]] = [] ∧
    filter_by_session [[("ts_event", Value.int 0)]] allSessions = .ok [] := by
  refine ⟨fun n => rfl, ?_, rfl, rfl⟩
  intro n hn
  have h1 : (Record.get [("ts_event", Value.int 0), ("ts_recv", Value.int n)] "ts_event") =
      Value.int 0 := rfl
  have h2 : (Record.get [("ts_event", Value.int 0), ("ts_recv", Value.int n)] "ts_recv") =
      Value.int n := rfl
  have h3 : (Record.get [("ts_event", Value.int 0), ("ts_recv", Value.int n)] "timestamp") =
      Value.null := rfl
  simp [extract_timestamps, Record.rawTs, h1, h2, h3, orV, Value.truthy,
    Value.toInt, hn]

/-- C9 witness: the fall-through applied at ts_recv = 5. -/
theorem C9_witness :
    (5 : Int) ≠ 0 ∧
    extract_timestamps [[("ts_event", Value.int 0), ("ts_recv", Value.int 5)]] = [5] :=
  ⟨by norm_num, C9_zero_timestamp_missing.2.1 5 (by norm_num)⟩

/-! ### C10: filter_by_session on empty input -/

theorem lookupSessions_isOk (l : List String)
    (h : ∀ s ∈ l, (sessionsMap s).isSome) :
    ∃ es, lookupSessions l = .ok es := by
  induction l with
  | nil => exact ⟨[], rfl⟩
  | cons s rest ih =>
    have hs := h s (List.mem_cons_self s rest)
    obtain ⟨e, he⟩ := Option.isSome_iff_exists.mp hs
    obtain ⟨es, hes⟩ := ih (fun x hx => h x (List.mem_cons_of_mem s hx))
    exact ⟨e :: es, by simp [lookupSessions, he, hes, Except.map]⟩

/-- C10: filter_by_session is not total on empty input.  For every non-empty
list of valid session names, the call on an empty record list reaches the
retained-percentage computation, which divides by len(data) = 0 and raises
ZeroDivisionError instead of returning an empty list. -/
theorem C10_empty_input_raises :
    ∀ (sessions : List String), sessions ≠ [] →
      (∀ s ∈ sessions, (sessionsMap s).isSome) →
      filter_by_session [] sessions = .error .divisionByZero := by
  intro l hne hval
  obtain ⟨es, hes⟩ := lookupSessions_isOk l hval
  simp [filter_by_session, hes]

/-- C10 witness: the empty-input failure at the concrete session list NY. -/
theorem C10_witness :
    (["NY"] : List String) ≠ [] ∧
    (∀ s ∈ (["NY"] : List String), (sessionsMap s).isSome) ∧
    filter_by_session [] ["NY"] = .error .divisionByZero :=
  ⟨by simp, by decide, C10_empty_input_raises ["NY"] (by simp) (by decide)⟩

end WolfMarket
